import Mathlib

/-!
# Verification of the dump1090 exporter core

Shallow embedding of `src/dump1090exporter/exporter.py` (and the metric
spec table of `src/dump1090exporter/metrics.py`), together with proofs
settling the frozen claims about the natural-language specification.

Modelling conventions:
* Python floats are modelled as exact rationals (`ℚ`); the arithmetic
  the program performs on them (`+`, `-`, `*`, `/`, comparisons) is
  modelled exactly, idealising away rounding of the primitive
  operations.
* The transcendental library functions (`math.sin`, `math.cos`,
  `math.atan`, `math.asin`, `math.sqrt`) and the constant `math.pi`
  are parameters of the embedding, collected in a `MathLib` structure.
  Theorems that need facts about them (for example that `sin` is odd)
  take those facts as explicit hypotheses, which hold for the real
  functions.
* JSON dictionaries are association lists; a missing key and an
  explicit `None` value are both modelled as `Option.none` where the
  program treats them alike.
* Exceptions are modelled with an explicit error component: a function
  that can raise returns the side effects made so far together with an
  `Option PyErr`.
-/

set_option maxRecDepth 4000

/-- Python exception kinds distinguished by the embedded code. -/
inductive PyErr where
  | keyError (key : String)
  | typeError
  | valueError
deriving DecidableEq

/-- The `Position` named tuple of `exporter.py` (decimal degrees). -/
structure Position where
  latitude : ℚ
  longitude : ℚ
deriving DecidableEq

/-- The transcendental functions and `pi` used by `exporter.py` via the
`math` module, as parameters of the embedding (each `ℚ → ℚ`, modelling
the float-valued library functions). -/
structure MathLib where
  sin : ℚ → ℚ
  cos : ℚ → ℚ
  atan : ℚ → ℚ
  asin : ℚ → ℚ
  sqrt : ℚ → ℚ
  pi : ℚ

/-- `math.radians`: degrees to radians, `x * pi / 180`. -/
def mathRadians (M : MathLib) (x : ℚ) : ℚ := x * M.pi / 180

/-- `math.degrees`: radians to degrees, `x * 180 / pi`. -/
def mathDegrees (M : MathLib) (x : ℚ) : ℚ := x * 180 / M.pi

/-- Python `int(x)` on a float: truncation toward zero. -/
def pyint (q : ℚ) : ℤ := if 0 ≤ q then ⌊q⌋ else -⌊-q⌋

/-- Python float `%`: `x % y = x - y * floor (x / y)` (result has the
sign of the divisor). -/
def pymod (x y : ℚ) : ℚ := x - y * ⌊x / y⌋

/-- Python `str()` restricted to the values produced by
`relative_bearing`, which are always integer multiples of `22.5` and
hence half-integers exactly representable as floats: `str` renders them
with exactly one fractional digit (`"…​.0"` or `"…​.5"`).  Total on `ℚ`;
faithful on half-integers. -/
def pyHalfStr (q : ℚ) : String :=
  if q < 0 then
    "-" ++ (toString ⌊-q⌋ ++ (if (-q : ℚ) = ⌊-q⌋ then ".0" else ".5"))
  else
    toString ⌊q⌋ ++ (if (q : ℚ) = ⌊q⌋ then ".0" else ".5")

/-- `exporter.py` lines 68-88: bucket a distance in meters into one of
the six canonical labels. -/
def distance_bucket (distance : ℚ) : String :=
  if distance > 400000 then "+Inf"
  else if distance > 320000 then "400000.0"
  else if distance > 240000 then "320000.0"
  else if distance > 160000 then "240000.0"
  else if distance > 80000 then "160000.0"
  else "80000.0"

/-- `exporter.py` lines 91-130: bearing of `pos2` relative to `pos1` in
degrees.  Same-latitude pairs short-circuit to 90 or 270; otherwise the
planar `atan` formula is used, normalised into a full turn. -/
def relative_angle (M : MathLib) (pos1 pos2 : Position) : ℚ :=
  let lat1 := pos1.latitude
  let lon1 := pos1.longitude
  let lat2 := pos2.latitude
  let lon2 := pos2.longitude
  if lat2 = lat1 then
    if lon2 > lon1 then 90 else 270
  else
    let deg := mathDegrees M (M.atan ((lon2 - lon1) / (lat2 - lat1)))
    if lat2 > lat1 then pymod (360 + deg) 360 else 180 + deg

/-- `exporter.py` lines 133-137: map a bearing to a bearing bucket,
`str(int(bearing / 22.5) * 22.5)`. -/
def relative_bearing (bearing : ℚ) : String :=
  pyHalfStr ((pyint (bearing / 22.5) : ℚ) * 22.5)

/-- `exporter.py` lines 140-168: haversine great-circle distance, with
the default Earth radius in meters. -/
def haversine_distance (M : MathLib) (pos1 pos2 : Position)
    (radius : ℚ := 6371000) : ℚ :=
  let lat1 := mathRadians M pos1.latitude
  let lon1 := mathRadians M pos1.longitude
  let lat2 := mathRadians M pos2.latitude
  let lon2 := mathRadians M pos2.longitude
  let hav := M.sin ((lat2 - lat1) / 2) ^ 2
    + M.cos lat1 * M.cos lat2 * M.sin ((lon2 - lon1) / 2) ^ 2
  2 * radius * M.asin (M.sqrt hav)

/-- A concrete `MathLib` sending every function to zero; used to
instantiate theorems whose hypotheses do not constrain the library. -/
def trivMathLib : MathLib :=
  { sin := fun _ => 0, cos := fun _ => 0, atan := fun _ => 0,
    asin := fun _ => 0, sqrt := fun _ => 0, pi := 3 }

/-- A concrete `MathLib` sending every function to the identity; it
satisfies `sin 0 = 0`, oddness of `sin`, `sqrt 0 = 0`, `asin 0 = 0`. -/
def idMathLib : MathLib :=
  { sin := fun x => x, cos := fun x => x, atan := fun x => x,
    asin := fun x => x, sqrt := fun x => x, pi := 3 }

/-- The `Dump1090Resources` named tuple (`exporter.py` lines 50-52). -/
structure Dump1090Resources where
  base : String
  receiver : String
  stats : String
  aircraft : String
deriving DecidableEq

/-- `build_resources` (`exporter.py` lines 57-65). -/
def build_resources (base : String) : Dump1090Resources :=
  { base := base,
    receiver := base ++ ("/receiver.json"),
    stats := base ++ ("/stats.json"),
    aircraft := base ++ ("/aircraft.json") }

/-- Outcome of one HTTP request inside `_fetch`: success (2xx with JSON
body), timeout (`asyncio.TimeoutError`), transport-level error
(`aiohttp.ClientError`), or a response with a non-2xx status. -/
inductive FetchOutcome where
  | success
  | timeout
  | clientError
  | badStatus (code : ℕ)
deriving DecidableEq

/-- Telemetry emitted by one `_fetch` call: each `.inc`/`.observe` call
on the three http instruments, as the label sets passed, plus whether
the call raised. -/
structure FetchTelemetry where
  totalIncs : List (List (String × String))
  errorIncs : List (List (String × String))
  durationObs : List (List (String × String))
  raised : Bool
deriving DecidableEq

/-- The resource label computed at the top of `_fetch`
(`exporter.py` lines 351-358). -/
def fetchLabels (r : Dump1090Resources) (resource : String) :
    List (String × String) :=
  if r.aircraft = resource then [("resource", "aircraft")]
  else if r.receiver = resource then [("resource", "receiver")]
  else if r.stats = resource then [("resource", "stats")]
  else []

/-- `_fetch` (`exporter.py` lines 344-391), projected onto its metric
side effects and its raise behaviour.  For an `http` resource the total
counter is incremented up front; a timeout increments the error counter
with the labels plus `error=timeout`; an `aiohttp.ClientError`
increments the error counter with `inc(labels)` (the prepared
`error_labels` carrying `error=client` is built but not used); a
non-2xx status raises a plain `Exception`, which neither `except`
clause catches, so no error increment happens; the `finally` block
always observes a duration with the plain labels.  A non-http resource
is read from the local file system with no telemetry at all (raising on
I/O or parse failure, modelled by the non-success outcomes). -/
def fetchTelemetry (r : Dump1090Resources) (resource : String)
    (outcome : FetchOutcome) : FetchTelemetry :=
  if resource.startsWith ("http") then
    let labels := fetchLabels r resource
    match outcome with
    | .success => ⟨[labels], [], [labels], false⟩
    | .timeout => ⟨[labels], [labels ++ [("error", "timeout")]], [labels], true⟩
    | .clientError => ⟨[labels], [labels], [labels], true⟩
    | .badStatus code =>
        if code = 200 then ⟨[labels], [], [labels], false⟩
        else ⟨[labels], [], [labels], true⟩
  else
    match outcome with
    | .success => ⟨[], [], [], false⟩
    | _ => ⟨[], [], [], true⟩

/-- A receiver document (`receiver.json`): the two keys the code reads,
plus whether the dictionary holds any further entries (for Python
truthiness of the whole dict). -/
structure ReceiverDoc where
  lat : Option ℚ
  lon : Option ℚ
  extraKeys : Bool
deriving DecidableEq

/-- Python truthiness of the receiver dict: non-empty. -/
def receiverTruthy (r : ReceiverDoc) : Bool :=
  r.lat.isSome || r.lon.isSome || r.extraKeys

/-- One cycle of `updater_receiver` (`exporter.py` lines 399-420),
given the current shared origin and the outcome of the fetch.  Returns
the new origin and whether the subsequent sleep uses the long interval
(`receiver_interval_origin_ok`) rather than the short one
(`receiver_interval`). -/
def updater_receiver_cycle (origin : Option Position)
    (fetched : Except PyErr ReceiverDoc) : Option Position × Bool :=
  let origin2 := match fetched with
    | .error _ => origin
    | .ok r =>
        if receiverTruthy r then
          match r.lat, r.lon with
          | some la, some lo => some ⟨la, lo⟩
          | _, _ => origin
        else origin
  (origin2, origin2.isSome)

/-- Association-list lookup, modelling Python dict key lookup for the
keys the program uses. -/
def alist_lookup {κ β : Type} [DecidableEq κ] :
    List (κ × β) → κ → Option β
  | [], _ => none
  | (k, v) :: rest, key => if k = key then some v else alist_lookup rest key

/-- Association-list update of an existing key (append when absent),
preserving insertion order as Python dicts do. -/
def alist_set {κ β : Type} [DecidableEq κ] :
    List (κ × β) → κ → β → List (κ × β)
  | [], k, v => [(k, v)]
  | (k2, v2) :: rest, k, v =>
      if k2 = k then (k, v) :: rest else (k2, v2) :: alist_set rest k v

/-- `collections.defaultdict(int)` read: looking a key up inserts it
with value `0` when absent, and returns the stored value. -/
def dd_get {κ : Type} [DecidableEq κ] (l : List (κ × ℚ)) (k : κ) :
    List (κ × ℚ) × ℚ :=
  match alist_lookup l k with
  | some v => (l, v)
  | none => (l ++ [(k, 0)], 0)

/-- `defaultdict(int)` increment: `d[k] += 1`. -/
def dd_incr {κ : Type} [DecidableEq κ] (l : List (κ × ℕ)) (k : κ) :
    List (κ × ℕ) :=
  match alist_lookup l k with
  | some v => alist_set l k (v + 1)
  | none => l ++ [(k, 1)]

/-- One entry of the `aircraft` list of `aircraft.json`, restricted to the
fields `process_aircraft` reads.  After the normalisation loop
(`exporter.py` lines 513-515) a missing key and an explicit `None` are
indistinguishable, so both are `none`.  `mlat` is a JSON object in the
raw data; only its truthiness and whether it has a `lat` key are read,
so it is modelled by its key list. -/
structure AircraftRecord where
  seen : Option ℚ
  seen_pos : Option ℚ
  lat : Option ℚ
  lon : Option ℚ
  mlat : Option (List String)
deriving DecidableEq

/-- The mutable cycle state of `process_aircraft` (`exporter.py` lines
521-558): the three counters, the two defaultdicts, and the histogram
observations already performed (the `metrics["count"].observe` calls,
which mutate the instrument inside the loop). -/
structure AircraftState where
  observed : ℕ
  with_pos : ℕ
  with_mlat : ℕ
  max_ranges : List (String × ℚ)
  positions : List ((String × String) × ℕ)
  observes : List (String × ℚ)
deriving DecidableEq

def initAircraftState : AircraftState := ⟨0, 0, 0, [], [], []⟩

/-- The condition `a["seen_pos"] and a["seen_pos"] < threshold`:
Python truthiness (`None` and `0` are falsy) short-circuits before the
comparison. -/
def posCond (a : AircraftRecord) (t : ℚ) : Bool :=
  match a.seen_pos with
  | none => false
  | some v => decide (¬v = 0) && decide (v < t)

/-- The condition `a["mlat"] and "lat" in a["mlat"]`: a missing or
empty `mlat` dict is falsy. -/
def mlatCond (a : AircraftRecord) : Bool :=
  match a.mlat with
  | none => false
  | some keys => decide (¬keys = []) && decide ("lat" ∈ keys)

/-- The body of the `if self.origin:` block (`exporter.py` lines
540-558) for a record with position `(la, lo)`: compute distance and
bearing, derive both labels, update the max-range defaultdict (the
read itself inserts a zero entry), bump the per-label-pair count, and
observe the distance into the `count` histogram. -/
def geoUpdate (M : MathLib) (org : Position) (s : AircraftState)
    (la lo : ℚ) : AircraftState :=
  let distance := haversine_distance M org ⟨la, lo⟩
  let distance_label := distance_bucket distance
  let bearing := relative_angle M org ⟨la, lo⟩
  let bearing_label := relative_bearing bearing
  let mrCur := dd_get s.max_ranges bearing_label
  let mr2 := if mrCur.2 < distance
    then alist_set mrCur.1 bearing_label distance else mrCur.1
  let ps := dd_incr s.positions (bearing_label, distance_label)
  { s with
    max_ranges := mr2
    positions := ps
    observes := s.observes ++ [(bearing_label, distance)] }

/-- One iteration of the `for a in aircraft["aircraft"]` loop
(`exporter.py` lines 531-558).  Returns the state after the iteration
together with the exception it raised, if any; mutations made before
the raise are kept (Python semantics).  `a["seen"] < threshold` with
`seen` normalised to `None` raises `TypeError`; so does
`math.radians(None)` inside `haversine_distance` when `lat`/`lon` are
`None` while an origin is set. -/
def stepRecord (M : MathLib) (origin : Option Position) (t : ℚ)
    (s : AircraftState) (a : AircraftRecord) : AircraftState × Option PyErr :=
  match a.seen with
  | none => (s, some .typeError)
  | some sv =>
    let s1 := if sv < t then { s with observed := s.observed + 1 } else s
    if posCond a t then
      let s2 := { s1 with with_pos := s1.with_pos + 1 }
      let s3 := if mlatCond a then { s2 with with_mlat := s2.with_mlat + 1 }
                else s2
      match origin with
      | none => (s3, none)
      | some org =>
        match a.lat, a.lon with
        | some la, some lo => (geoUpdate M org s3 la lo, none)
        | _, _ => (s3, some .typeError)
    else (s1, none)

/-- The loop of `process_aircraft`, threading the state through the
records and stopping at the first exception. -/
def processRecords (M : MathLib) (origin : Option Position) (t : ℚ) :
    AircraftState → List AircraftRecord → AircraftState × Option PyErr
  | s, [] => (s, none)
  | s, a :: rest =>
    match stepRecord M origin t s a with
    | (s2, none) => processRecords M origin t s2 rest
    | (s2, some e) => (s2, some e)

/-- `process_aircraft` (`exporter.py` lines 502-575) applied to the
`aircraft["aircraft"]` record list, the shared origin and the recency
threshold (default 15).  The result is the final cycle state plus the
exception that escaped, if any; the end-of-loop `metric.set` calls
(lines 560-570) happen only when the second component is `none`, and
are modelled by `applyAircraftCycle` below. -/
def process_aircraft (M : MathLib) (origin : Option Position)
    (records : List AircraftRecord) (threshold : ℚ := 15) :
    AircraftState × Option PyErr :=
  processRecords M origin threshold initAircraftState records

/-- The published values of the aircraft instruments: the
three scalar gauges, the labelled `max_range` gauge, the labelled
`recent_count` gauge, and the per-bearing list of observations of the
`count` histogram.  `none` means the instrument was never set with
that label set. -/
structure AircraftMetrics where
  observed : Option ℚ
  observed_with_pos : Option ℚ
  observed_with_mlat : Option ℚ
  max_range : String → Option ℚ
  recent_count : String × String → Option ℚ
  count_hist : String → List ℚ

def emptyAircraftMetrics : AircraftMetrics :=
  ⟨none, none, none, fun _ => none, fun _ => none, fun _ => []⟩

/-- The effect of one `process_aircraft` call on the aircraft
instruments: the histogram observations made during the loop are
always applied (they happened before any exception), and the
end-of-loop `metric.set` calls (`exporter.py` lines 560-570) are
applied only when the loop completed without raising.  Scalars are set
unconditionally; `max_range` and `recent_count` are set only at the
keys present in the defaultdicts. -/
def applyAircraftCycle (m : AircraftMetrics)
    (r : AircraftState × Option PyErr) : AircraftMetrics :=
  let s := r.1
  let m1 := { m with
    count_hist := fun bl =>
      m.count_hist bl
        ++ (s.observes.filter (fun ob => decide (ob.1 = bl))).map (fun ob => ob.2) }
  match r.2 with
  | some _ => m1
  | none =>
    { m1 with
      observed := some (s.observed : ℚ)
      observed_with_pos := some (s.with_pos : ℚ)
      observed_with_mlat := some (s.with_mlat : ℚ)
      max_range := fun bl => ((alist_lookup s.max_ranges bl).map some).getD (m.max_range bl)
      recent_count := fun key =>
        ((alist_lookup s.positions key).map (fun c => some (c : ℚ))).getD (m.recent_count key) }

/-- JSON-like values of the statistics document.  Numeric leaves are
rationals; booleans/strings/nulls do not occur in the positions
`process_stats` reads and are not modelled. -/
inductive JVal where
  | num (q : ℚ)
  | list (items : List JVal)
  | obj (entries : List (String × JVal))

/-- A statistics document: top-level time-period keys mapped to JSON
values. -/
def StatsDoc : Type := List (String × JVal)

/-- A value passed to `metric.set`: either a JSON value from the
document or the `math.nan` sentinel. -/
inductive SetVal where
  | val (j : JVal)
  | nan

/-- One `metric.set` call performed by `process_stats`: the metric is
identified by its `(group, stats_name)` key in the metrics dict, with
the label dict and the value passed. -/
structure StatsUpdate where
  group : String
  name : String
  labels : List (String × JVal)
  value : SetVal

/-- The key identifying which instrument a `StatsUpdate` addressed. -/
def updKey (u : StatsUpdate) : String × String := (u.group, u.name)

/-- The `Specs["stats"]` table of `metrics.py`, projected onto the
fields that drive `process_stats`: for every group (in the insertion
order of the dict) the rows `(metric_type, time_period, stats_name)`
in order.  The `prometheus_name` and help-text fields only name the
created instrument and are not read by `process_stats`, so they are
omitted here. -/
def statsSpecs : List (String × List (String × String × String)) :=
  [("", [("counter", "total", "messages"),
         ("counter", "total", "messages_by_df")]),
   ("adaptive",
     [("gauge", "last1min", "dynamic_range_limit_db"),
      ("counter", "total", "gain_changes"),
      ("gauge", "last1min", "gain_db"),
      ("counter", "total", "gain_seconds"),
      ("counter", "total", "loud_decoded"),
      ("counter", "total", "loud_undecoded"),
      ("gauge", "total", "noise_dbfs")]),
   ("cpr",
     [("counter", "total", "airborne"),
      ("counter", "total", "surface"),
      ("counter", "total", "filtered"),
      ("counter", "total", "global_bad"),
      ("counter", "total", "global_ok"),
      ("counter", "total", "global_range"),
      ("counter", "total", "global_skipped"),
      ("counter", "total", "global_speed"),
      ("counter", "total", "local_aircraft_relative"),
      ("counter", "total", "local_ok"),
      ("counter", "total", "local_range"),
      ("counter", "total", "local_receiver_relative"),
      ("counter", "total", "local_skipped"),
      ("counter", "total", "local_speed")]),
   ("cpu",
     [("counter", "total", "background"),
      ("counter", "total", "demod"),
      ("counter", "total", "reader")]),
   ("local",
     [("counter", "total", "accepted"),
      ("gauge", "last1min", "signal"),
      ("gauge", "last1min", "peak_signal"),
      ("gauge", "last1min", "noise"),
      ("counter", "total", "strong_signals"),
      ("counter", "total", "bad"),
      ("counter", "total", "modes"),
      ("counter", "total", "modeac"),
      ("counter", "total", "samples_dropped"),
      ("counter", "total", "samples_processed"),
      ("counter", "total", "unknown_icao")]),
   ("remote",
     [("counter", "total", "accepted"),
      ("counter", "total", "bad"),
      ("counter", "total", "modeac"),
      ("counter", "total", "modes"),
      ("counter", "total", "unknown_icao")]),
   ("tracks",
     [("counter", "total", "all"),
      ("counter", "total", "single_message"),
      ("counter", "total", "unreliable")])]

/-- One row of the iteration of `process_stats`: its group key, its
time period and its stats name (the order `process_stats` visits them,
flattening the two nested dict loops of lines 467-468). -/
def statsRows : List (String × String × String) :=
  statsSpecs.flatMap (fun g => g.2.map (fun row => (g.1, row.2.1, row.2.2)))

/-- The `for bit_errors, count in enumerate(value)` and
`for data_format, count in enumerate(value)` shapes: one `set` per
index with the index as label value.  Iterating a non-list raises
(model restriction: Python would iterate the keys of a dict; dump1090
statistics never put an object in these fields). -/
def enumUpdates (group name label : String) : JVal → Except PyErr (List StatsUpdate)
  | .list items =>
      .ok ((List.range items.length).zip items
        |>.map (fun p => ⟨group, name, [(label, .num (p.1 : ℚ))], .val p.2⟩))
  | _ => .error .typeError

/-- The `for db, count in value` shape of `gain_seconds`: each element
must unpack into a pair `(dB, count)`. -/
def pairUpdates (group name label : String) : JVal → Except PyErr (List StatsUpdate)
  | .list items =>
      items.mapM (fun item =>
        match item with
        | .list [a, b] => .ok (⟨group, name, [(label, a)], .val b⟩ : StatsUpdate)
        | _ => .error .valueError)
  | _ => .error .typeError

/-- The field-shape dispatch of `process_stats` (lines 480-490):
`accepted`, `gain_seconds` and `messages_by_df` are matched by name;
anything else is a scalar `set` with no labels. -/
def statsDispatch (group name : String) (value : JVal) :
    Except PyErr (List StatsUpdate) :=
  if name = "accepted" then enumUpdates group name ("bit_errors") value
  else if name = "gain_seconds" then pairUpdates group name ("dB") value
  else if name = "messages_by_df" then enumUpdates group name ("data_format") value
  else .ok [⟨group, name, [], .val value⟩]

/-- One row of `process_stats` (lines 468-500).  A missing time period
is caught (`except KeyError: continue`): the row is skipped.  The
sub-group indexing `tp_stats[group_key]` is NOT inside a `try`: a
missing sub-group raises an uncaught `KeyError` and a non-dict section
an uncaught `TypeError`.  A missing field (`d[name]`) is caught and
sets the instrument to `math.nan` with empty labels; a shape mismatch
inside the dispatch raises uncaught. -/
def rowStep (stats : StatsDoc) (row : String × String × String) :
    Except PyErr (List StatsUpdate) :=
  let group := row.1
  let tp := row.2.1
  let name := row.2.2
  match alist_lookup stats tp with
  | none => .ok []
  | some tpStats =>
    let dRes : Except PyErr JVal :=
      if group = "" then .ok tpStats
      else
        match tpStats with
        | .obj entries =>
            match alist_lookup entries group with
            | some v => .ok v
            | none => .error (.keyError group)
        | _ => .error .typeError
    match dRes with
    | .error e => .error e
    | .ok d =>
      match d with
      | .obj entries =>
          match alist_lookup entries name with
          | none => .ok [⟨group, name, [], .nan⟩]
          | some value => statsDispatch group name value
      | _ => .error .typeError

/-- The row loop of `process_stats`: rows processed in order,
accumulating updates, stopping at the first uncaught exception (the
updates already made persist). -/
def processRows (stats : StatsDoc) :
    List (String × String × String) → List StatsUpdate × Option PyErr
  | [] => ([], none)
  | row :: rest =>
    match rowStep stats row with
    | .error e => ([], some e)
    | .ok us =>
      let tail := processRows stats rest
      (us ++ tail.1, tail.2)

/-- `process_stats` (`exporter.py` lines 458-500): the `metric.set`
calls performed on a statistics document, plus the exception that
escaped the method, if any. -/
def process_stats (stats : StatsDoc) : List StatsUpdate × Option PyErr :=
  processRows stats statsRows

/-- The updates a single row produces when processed on its own
(failures contributing no update) — the per-row reading used to state
row independence. -/
def rowUpdates (stats : StatsDoc) (row : String × String × String) :
    List StatsUpdate :=
  match rowStep stats row with
  | .ok us => us
  | .error _ => []

/-- Whether a row raises an uncaught exception. -/
def rowRaises (stats : StatsDoc) (row : String × String × String) : Bool :=
  match rowStep stats row with
  | .ok _ => false
  | .error _ => true


/-- The test `a["seen"] < threshold` as a Boolean on a normalised
record (false on `None`; the code raises there, so this reading only
matters on documents the code processes successfully). -/
def seenLtB (a : AircraftRecord) (t : ℚ) : Bool :=
  match a.seen with
  | some v => decide (v < t)
  | none => false

/-- Number of records with `seen < threshold`. -/
def countObserved (recs : List AircraftRecord) (t : ℚ) : ℕ :=
  (recs.filter (fun a => seenLtB a t)).length

/-- Number of records with a truthy `seen_pos < threshold`. -/
def countWithPos (recs : List AircraftRecord) (t : ℚ) : ℕ :=
  (recs.filter (fun a => posCond a t)).length

/-- Number of records with a truthy `seen_pos < threshold` whose
truthy `mlat` has a `lat` key. -/
def countWithMlat (recs : List AircraftRecord) (t : ℚ) : ℕ :=
  (recs.filter (fun a => posCond a t && mlatCond a)).length

/-- The reading the claim gives of the `observed_with_pos` membership test:
`seen < threshold` AND a defined (`Some`) `seen_pos < threshold`.
Follows the words of the claim, for comparison against the code. -/
def claimWithPosB (a : AircraftRecord) (t : ℚ) : Bool :=
  seenLtB a t
    && (match a.seen_pos with
        | some v => decide (v < t)
        | none => false)

/-- The bearing-sector label a record would be classified under, when
an origin is known and the record carries a position. -/
def bearingLabelOf (M : MathLib) (o : Option Position)
    (a : AircraftRecord) : Option String :=
  match o, a.lat, a.lon with
  | some org, some la, some lo =>
      some (relative_bearing (relative_angle M org ⟨la, lo⟩))
  | _, _, _ => none

/-- The `(bearing sector, distance bucket)` label pair of a record,
when an origin is known and the record carries a position. -/
def labelsOf (M : MathLib) (o : Option Position)
    (a : AircraftRecord) : Option (String × String) :=
  match o, a.lat, a.lon with
  | some org, some la, some lo =>
      some (relative_bearing (relative_angle M org ⟨la, lo⟩),
        distance_bucket (haversine_distance M org ⟨la, lo⟩))
  | _, _, _ => none

/-- The six canonical distance-bucket labels. -/
def distanceBucketLabels : List String :=
  ["80000.0", "160000.0", "240000.0", "320000.0", "400000.0", "+Inf"]

/-- The sixteen canonical bearing-sector labels. -/
def bearingSectorLabels : List String :=
  ["0.0", "22.5", "45.0", "67.5", "90.0", "112.5", "135.0", "157.5",
   "180.0", "202.5", "225.0", "247.5", "270.0", "292.5", "315.0", "337.5"]

/-- C4: `distance_bucket` is total, returns only the six canonical
labels, and classifies by right-open descending thresholds: `d >
400000 ↦ "+Inf"`, `320000 < d ≤ 400000 ↦ "400000.0"`, `240000 < d ≤
320000 ↦ "320000.0"`, `160000 < d ≤ 240000 ↦ "240000.0"`, `80000 < d ≤
160000 ↦ "160000.0"`, `d ≤ 80000 ↦ "80000.0"`; in particular
`distance_bucket 80000.0 = "80000.0"`, `distance_bucket 80000.1 =
"160000.0"`, and `distance_bucket 400000.1 = "+Inf"`. -/
theorem c4_distance_bucket_thresholds (d : ℚ) :
    distance_bucket d ∈ distanceBucketLabels
    ∧ (d > 400000 → distance_bucket d = "+Inf")
    ∧ (320000 < d ∧ d ≤ 400000 → distance_bucket d = "400000.0")
    ∧ (240000 < d ∧ d ≤ 320000 → distance_bucket d = "320000.0")
    ∧ (160000 < d ∧ d ≤ 240000 → distance_bucket d = "240000.0")
    ∧ (80000 < d ∧ d ≤ 160000 → distance_bucket d = "160000.0")
    ∧ (d ≤ 80000 → distance_bucket d = "80000.0")
    ∧ distance_bucket (80000 : ℚ) = "80000.0"
    ∧ distance_bucket (80000.1 : ℚ) = "160000.0"
    ∧ distance_bucket (400000.1 : ℚ) = "+Inf" := by
  refine ⟨?_, ?_, ?_, ?_, ?_, ?_, ?_, ?_, ?_, ?_⟩
  · unfold distance_bucket distanceBucketLabels
    split_ifs <;> simp
  · intro h
    unfold distance_bucket
    rw [if_pos h]
  · intro h
    unfold distance_bucket
    rw [if_neg (by linarith), if_pos (by linarith)]
  · intro h
    unfold distance_bucket
    rw [if_neg (by linarith), if_neg (by linarith), if_pos (by linarith)]
  · intro h
    unfold distance_bucket
    rw [if_neg (by linarith), if_neg (by linarith), if_neg (by linarith),
      if_pos (by linarith)]
  · intro h
    unfold distance_bucket
    rw [if_neg (by linarith), if_neg (by linarith), if_neg (by linarith),
      if_neg (by linarith), if_pos (by linarith)]
  · intro h
    unfold distance_bucket
    rw [if_neg (by linarith), if_neg (by linarith), if_neg (by linarith),
      if_neg (by linarith), if_neg (by linarith)]
  · with_unfolding_all decide
  · with_unfolding_all decide
  · with_unfolding_all decide

/-- Witness for C4: the theorem instantiated at `d = 90000`, which
falls in the `(80000, 160000]` band. -/
theorem c4_distance_bucket_thresholds_witness :
    distance_bucket (90000 : ℚ) = "160000.0" :=
  (c4_distance_bucket_thresholds 90000).2.2.2.2.2.1 ⟨by norm_num, by norm_num⟩

/-- Python float `%` with a positive divisor lands in `[0, y)`. -/
theorem pymod_bounds (x y : ℚ) (hy : 0 < y) :
    0 ≤ pymod x y ∧ pymod x y < y := by
  have hfl : ((⌊x / y⌋ : ℚ)) ≤ x / y := Int.floor_le (x / y)
  have hfu : x / y < (⌊x / y⌋ : ℚ) + 1 := Int.lt_floor_add_one (x / y)
  have hmul : y * (x / y) = x := by field_simp
  constructor
  · have h3 : y * ((⌊x / y⌋ : ℚ)) ≤ y * (x / y) :=
      mul_le_mul_of_nonneg_left hfl (le_of_lt hy)
    unfold pymod
    linarith
  · have h3 : y * (x / y) < y * ((⌊x / y⌋ : ℚ) + 1) := (mul_lt_mul_left hy).2 hfu
    have h4 : y * ((⌊x / y⌋ : ℚ) + 1) = y * (⌊x / y⌋ : ℚ) + y := by ring
    unfold pymod
    linarith

/-- Any bearing in `[0, 360)` is mapped by `relative_bearing` to one of
the sixteen canonical sector labels. -/
theorem relative_bearing_mem_sectors (b : ℚ) (h0 : 0 ≤ b) (h1 : b < 360) :
    relative_bearing b ∈ bearingSectorLabels := by
  have hq0 : (0 : ℚ) ≤ b / 22.5 := by positivity
  have hk0 : (0 : ℤ) ≤ ⌊b / 22.5⌋ := Int.floor_nonneg.2 hq0
  have hq1 : b / 22.5 < 16 := by
    rw [div_lt_iff₀ (by norm_num : (0 : ℚ) < 22.5)]
    linarith
  have hk1 : ⌊b / 22.5⌋ < 16 := Int.floor_lt.2 (by push_cast; exact hq1)
  have hpy : pyint (b / 22.5) = ⌊b / 22.5⌋ := by
    unfold pyint
    rw [if_pos hq0]
  unfold relative_bearing
  rw [hpy]
  set k := ⌊b / 22.5⌋ with hk
  interval_cases k <;> with_unfolding_all decide

/-- C6: for any `atan`/`degrees` implementation whose composite stays
in the open interval `(-90, 90)` (true of the real functions),
`relative_angle` always lands in `[0, 360)`, and `relative_bearing`
of any such value is one of the sixteen canonical sector labels. -/
theorem c6_relative_angle_range_and_sector (M : MathLib)
    (hrange : ∀ x, -90 < mathDegrees M (M.atan x)
      ∧ mathDegrees M (M.atan x) < 90)
    (pos1 pos2 : Position) :
    0 ≤ relative_angle M pos1 pos2 ∧ relative_angle M pos1 pos2 < 360
    ∧ relative_bearing (relative_angle M pos1 pos2) ∈ bearingSectorLabels := by
  have hb : 0 ≤ relative_angle M pos1 pos2
      ∧ relative_angle M pos1 pos2 < 360 := by
    simp only [relative_angle]
    split_ifs with h1 h2 h3
    · exact ⟨by norm_num, by norm_num⟩
    · exact ⟨by norm_num, by norm_num⟩
    · exact pymod_bounds _ 360 (by norm_num)
    · have hr := hrange ((pos2.longitude - pos1.longitude)
        / (pos2.latitude - pos1.latitude))
      exact ⟨by linarith [hr.1], by linarith [hr.2]⟩
  exact ⟨hb.1, hb.2, relative_bearing_mem_sectors _ hb.1 hb.2⟩

/-- Witness for C6: the theorem instantiated with the trivial library
(whose `atan` is constantly 0, so the range hypothesis holds) at a
concrete pair of positions. -/
theorem c6_relative_angle_range_and_sector_witness :
    0 ≤ relative_angle trivMathLib ⟨2, 3⟩ ⟨5, 7⟩
    ∧ relative_angle trivMathLib ⟨2, 3⟩ ⟨5, 7⟩ < 360
    ∧ relative_bearing (relative_angle trivMathLib ⟨2, 3⟩ ⟨5, 7⟩)
        ∈ bearingSectorLabels :=
  c6_relative_angle_range_and_sector trivMathLib
    (fun x => by constructor <;> norm_num [mathDegrees, trivMathLib])
    ⟨2, 3⟩ ⟨5, 7⟩

/-- C7: when both positions share the latitude exactly,
`relative_angle` returns exactly 90 when the target longitude is
greater and exactly 270 otherwise; the computed-angle branch (and with
it the division by the zero latitude difference) is never entered, so
the result does not depend on the `atan` implementation at all. -/
theorem c7_relative_angle_same_latitude (M M2 : MathLib)
    (pos1 pos2 : Position) (h : pos2.latitude = pos1.latitude) :
    (pos2.longitude > pos1.longitude → relative_angle M pos1 pos2 = 90)
    ∧ (¬pos2.longitude > pos1.longitude → relative_angle M pos1 pos2 = 270)
    ∧ relative_angle M pos1 pos2 = relative_angle M2 pos1 pos2 := by
  refine ⟨fun h2 => ?_, fun h2 => ?_, ?_⟩
  · simp [relative_angle, h, h2]
  · simp [relative_angle, h, h2]
  · simp [relative_angle, h]

/-- Witness for C7: a coincident-latitude pair with the target to the
east yields exactly 90. -/
theorem c7_relative_angle_same_latitude_witness :
    relative_angle trivMathLib ⟨1, 2⟩ ⟨1, 5⟩ = 90 :=
  (c7_relative_angle_same_latitude trivMathLib idMathLib ⟨1, 2⟩ ⟨1, 5⟩ rfl).1
    (by norm_num)

/-- C8: for any math library whose `sin` vanishes at 0 and is odd and
whose `sqrt`/`asin` vanish at 0 (true of the real functions),
`haversine_distance` is zero on identical points and symmetric in its
two position arguments, for every radius. -/
theorem c8_haversine_zero_and_symmetric (M : MathLib)
    (hsin0 : M.sin 0 = 0) (hsqrt0 : M.sqrt 0 = 0) (hasin0 : M.asin 0 = 0)
    (hodd : ∀ x, M.sin (-x) = -M.sin x) (p a b : Position) (r : ℚ) :
    haversine_distance M p p r = 0
    ∧ haversine_distance M a b r = haversine_distance M b a r := by
  have key : ∀ x y : ℚ, M.sin ((x - y) / 2) ^ 2 = M.sin ((y - x) / 2) ^ 2 := by
    intro x y
    have e : (x - y) / 2 = -((y - x) / 2) := by ring
    rw [e, hodd, neg_sq]
  constructor
  · simp [haversine_distance, hsin0, hsqrt0, hasin0]
  · simp only [haversine_distance]
    have hAB :
        M.sin ((mathRadians M b.latitude - mathRadians M a.latitude) / 2) ^ 2
          + M.cos (mathRadians M a.latitude) * M.cos (mathRadians M b.latitude)
            * M.sin ((mathRadians M b.longitude - mathRadians M a.longitude) / 2) ^ 2
        = M.sin ((mathRadians M a.latitude - mathRadians M b.latitude) / 2) ^ 2
          + M.cos (mathRadians M b.latitude) * M.cos (mathRadians M a.latitude)
            * M.sin ((mathRadians M a.longitude - mathRadians M b.longitude) / 2) ^ 2 := by
      rw [key (mathRadians M b.latitude) (mathRadians M a.latitude),
        key (mathRadians M b.longitude) (mathRadians M a.longitude)]
      ring
    rw [hAB]

/-- Witness for C8: the theorem instantiated with the identity library
(which satisfies all four hypotheses) at concrete points. -/
theorem c8_haversine_zero_and_symmetric_witness :
    haversine_distance idMathLib ⟨1, 2⟩ ⟨1, 2⟩ 6371000 = 0
    ∧ haversine_distance idMathLib ⟨1, 2⟩ ⟨3, 4⟩ 6371000
      = haversine_distance idMathLib ⟨3, 4⟩ ⟨1, 2⟩ 6371000 :=
  c8_haversine_zero_and_symmetric idMathLib rfl rfl rfl (fun _ => rfl)
    ⟨1, 2⟩ ⟨1, 2⟩ ⟨3, 4⟩ 6371000

/-- C3 evaluation at the failing inputs: fetching the aircraft URL,
the timeout path increments the error counter with the failure-kind
label, but the `aiohttp.ClientError` path increments it with only the
resource label (the prepared `error=client` label dict is built and
discarded), and a non-2xx status performs no error-counter increment
at all — contradicting the claim that all three failure kinds record
an error count labeled by failure kind. -/
theorem c3_fetch_error_telemetry_eval :
    fetchTelemetry (build_resources ("http://h")) (build_resources ("http://h")).aircraft .timeout
      = ⟨[[("resource", "aircraft")]],
         [[("resource", "aircraft"), ("error", "timeout")]],
         [[("resource", "aircraft")]], true⟩
    ∧ fetchTelemetry (build_resources ("http://h")) (build_resources ("http://h")).aircraft .clientError
      = ⟨[[("resource", "aircraft")]],
         [[("resource", "aircraft")]],
         [[("resource", "aircraft")]], true⟩
    ∧ fetchTelemetry (build_resources ("http://h")) (build_resources ("http://h")).aircraft (.badStatus 404)
      = ⟨[[("resource", "aircraft")]], [],
         [[("resource", "aircraft")]], true⟩ := by
  refine ⟨?_, ?_, ?_⟩ <;> with_unfolding_all decide

/-- C9: one receiver-loop cycle sets the shared origin to
`Position(lat, lon)` exactly when the fetched document contains both
keys, leaves it unchanged on a fetch failure (and when a key is
missing), and the subsequent sleep uses the long interval iff the
origin is set at that point; concretely, a document with `lat=-34.9`,
`lon=138.6` yields origin `(-34.9, 138.6)` and the long interval. -/
theorem c9_receiver_cycle (origin : Option Position)
    (fetched : Except PyErr ReceiverDoc) :
    (∀ r la lo, fetched = .ok r → r.lat = some la → r.lon = some lo →
      (updater_receiver_cycle origin fetched).1 = some ⟨la, lo⟩)
    ∧ (∀ r, fetched = .ok r → ¬(r.lat.isSome = true ∧ r.lon.isSome = true) →
      (updater_receiver_cycle origin fetched).1 = origin)
    ∧ (∀ e, fetched = .error e →
      (updater_receiver_cycle origin fetched).1 = origin)
    ∧ (updater_receiver_cycle origin fetched).2
        = (updater_receiver_cycle origin fetched).1.isSome
    ∧ updater_receiver_cycle none (.ok ⟨some (-34.9 : ℚ), some (138.6 : ℚ), false⟩)
        = (some ⟨-34.9, 138.6⟩, true) := by
  refine ⟨?_, ?_, ?_, rfl, ?_⟩
  · intro r la lo hf hla hlo
    subst hf
    obtain ⟨rlat, rlon, rex⟩ := r
    simp only at hla hlo
    subst hla
    subst hlo
    simp [updater_receiver_cycle, receiverTruthy]
  · intro r hf hnot
    subst hf
    obtain ⟨rlat, rlon, rex⟩ := r
    cases rlat with
    | some la =>
      cases rlon with
      | some lo => exact absurd ⟨rfl, rfl⟩ hnot
      | none => cases rex <;> simp [updater_receiver_cycle, receiverTruthy]
    | none =>
      cases rlon with
      | some lo => cases rex <;> simp [updater_receiver_cycle, receiverTruthy]
      | none => cases rex <;> simp [updater_receiver_cycle, receiverTruthy]
  · intro e hf
    subst hf
    rfl
  · with_unfolding_all decide

theorem countObserved_cons (a : AircraftRecord) (l : List AircraftRecord)
    (t : ℚ) : countObserved (a :: l) t
      = (if seenLtB a t then 1 else 0) + countObserved l t := by
  simp only [countObserved, List.filter_cons]
  split <;> simp [Nat.add_comm]

theorem countWithPos_cons (a : AircraftRecord) (l : List AircraftRecord)
    (t : ℚ) : countWithPos (a :: l) t
      = (if posCond a t then 1 else 0) + countWithPos l t := by
  simp only [countWithPos, List.filter_cons]
  split <;> simp [Nat.add_comm]

theorem countWithMlat_cons (a : AircraftRecord) (l : List AircraftRecord)
    (t : ℚ) : countWithMlat (a :: l) t
      = (if posCond a t && mlatCond a then 1 else 0) + countWithMlat l t := by
  simp only [countWithMlat, List.filter_cons]
  split <;> simp [Nat.add_comm]

/-- A successful loop iteration adds the three membership indicators
of its record to the three counters. -/
theorem stepRecord_counts (M : MathLib) (o : Option Position) (t : ℚ)
    (s : AircraftState) (a : AircraftRecord) (s2 : AircraftState)
    (h : stepRecord M o t s a = (s2, none)) :
    s2.observed = s.observed + (if seenLtB a t then 1 else 0)
    ∧ s2.with_pos = s.with_pos + (if posCond a t then 1 else 0)
    ∧ s2.with_mlat = s.with_mlat
        + (if posCond a t && mlatCond a then 1 else 0) := by
  cases ha : a.seen with
  | none =>
    rw [stepRecord, ha] at h
    simp at h
  | some sv =>
    rw [stepRecord, ha] at h
    dsimp only at h
    by_cases hp : posCond a t
    · rw [if_pos hp] at h
      cases o with
      | none =>
        simp only [Prod.mk.injEq] at h
        rcases h with ⟨h1, h2⟩
        subst h1
        simp [seenLtB, ha, hp]
        constructor
        · split <;> split <;> simp_all
        · split <;> split <;> simp_all
      | some org =>
        cases hla : a.lat with
        | none =>
          rw [hla] at h
          cases a.lon <;> simp at h
        | some la =>
          cases hlo : a.lon with
          | none =>
            rw [hla, hlo] at h
            simp at h
          | some lo =>
            rw [hla, hlo] at h
            simp only [Prod.mk.injEq] at h
            rcases h with ⟨h1, h2⟩
            subst h1
            simp [seenLtB, ha, hp, geoUpdate]
            constructor
            · split <;> split <;> simp_all [geoUpdate]
            · split <;> split <;> simp_all [geoUpdate]
    · rw [if_neg hp] at h
      simp only [Prod.mk.injEq] at h
      rcases h with ⟨h1, h2⟩
      subst h1
      simp [seenLtB, ha, hp]
      split <;> simp_all

/-- A successful run of the record loop adds the three counts over the
list to the initial counters. -/
theorem processRecords_counts (M : MathLib) (o : Option Position) (t : ℚ) :
    ∀ (l : List AircraftRecord) (s0 s : AircraftState),
      processRecords M o t s0 l = (s, none) →
      s.observed = s0.observed + countObserved l t
      ∧ s.with_pos = s0.with_pos + countWithPos l t
      ∧ s.with_mlat = s0.with_mlat + countWithMlat l t := by
  intro l
  induction l with
  | nil =>
    intro s0 s h
    simp only [processRecords, Prod.mk.injEq] at h
    rcases h with ⟨h1, _⟩
    subst h1
    simp [countObserved, countWithPos, countWithMlat]
  | cons a rest ih =>
    intro s0 s h
    simp only [processRecords] at h
    cases hstep : stepRecord M o t s0 a with
    | mk s1 e =>
      rw [hstep] at h
      cases e with
      | none =>
        have hc := stepRecord_counts M o t s0 a s1 hstep
        have hr := ih s1 s h
        rw [countObserved_cons, countWithPos_cons, countWithMlat_cons]
        refine ⟨?_, ?_, ?_⟩ <;> omega
      | some e2 => simp at h

/-- C2 (amended): on a document the code processes without raising,
`observed` counts exactly the records with `seen < threshold`;
`observed_with_pos` counts exactly the records with a truthy (present
and nonzero) `seen_pos < threshold`, independently of `seen`;
`observed_with_mlat` counts exactly those of the latter whose truthy
`mlat` carries a `lat` field; in particular when every record has
`seen < threshold`, `observed` equals the number of records. -/
theorem c2_aircraft_counts (M : MathLib) (o : Option Position)
    (recs : List AircraftRecord) (t : ℚ) (s : AircraftState)
    (h : process_aircraft M o recs t = (s, none)) :
    s.observed = countObserved recs t
    ∧ s.with_pos = countWithPos recs t
    ∧ s.with_mlat = countWithMlat recs t
    ∧ ((∀ a ∈ recs, seenLtB a t = true) → s.observed = recs.length) := by
  have hp := processRecords_counts M o t recs initAircraftState s h
  simp only [initAircraftState] at hp
  refine ⟨by omega, by omega, by omega, ?_⟩
  · intro hall
    have : recs.filter (fun a => seenLtB a t) = recs := List.filter_eq_self.2 hall
    have hlen : countObserved recs t = recs.length := by
      rw [countObserved, this]
    omega

/-- Witness for C2: the amended theorem applied to a concrete
two-record document processed without error. -/
theorem c2_aircraft_counts_witness :
    (process_aircraft trivMathLib none
      [⟨some 1, some 1, none, none, some ["lat"]⟩,
       ⟨some 20, none, none, none, none⟩] 15).1.observed
      = countObserved
        [⟨some 1, some 1, none, none, some ["lat"]⟩,
         ⟨some 20, none, none, none, none⟩] 15
    ∧ (process_aircraft trivMathLib none
      [⟨some 1, some 1, none, none, some ["lat"]⟩,
       ⟨some 20, none, none, none, none⟩] 15).1.with_pos
      = countWithPos
        [⟨some 1, some 1, none, none, some ["lat"]⟩,
         ⟨some 20, none, none, none, none⟩] 15
    ∧ (process_aircraft trivMathLib none
      [⟨some 1, some 1, none, none, some ["lat"]⟩,
       ⟨some 20, none, none, none, none⟩] 15).1.with_mlat
      = countWithMlat
        [⟨some 1, some 1, none, none, some ["lat"]⟩,
         ⟨some 20, none, none, none, none⟩] 15 := by
  have h := c2_aircraft_counts trivMathLib none
    [⟨some 1, some 1, none, none, some ["lat"]⟩,
     ⟨some 20, none, none, none, none⟩] 15
    (process_aircraft trivMathLib none
      [⟨some 1, some 1, none, none, some ["lat"]⟩,
       ⟨some 20, none, none, none, none⟩] 15).1
    (by with_unfolding_all decide)
  exact ⟨h.1, h.2.1, h.2.2.1⟩

/-- Counterexample for C2 as stated: a single record with `seen = 20`
(not below the threshold) and `seen_pos = 5` is counted into
`observed_with_pos` by the code, while the claim (which requires
`seen < threshold` in addition) counts zero records. -/
theorem c2_counterexample_seen_pos_independent :
    (process_aircraft trivMathLib none
      [⟨some 20, some 5, none, none, none⟩] 15).2 = none
    ∧ (process_aircraft trivMathLib none
      [⟨some 20, some 5, none, none, none⟩] 15).1.with_pos = 1
    ∧ ([⟨some 20, some 5, none, none, none⟩].filter
        (fun a => claimWithPosB a 15)).length = 0 := by
  refine ⟨?_, ?_, ?_⟩ <;> with_unfolding_all decide

/-- If some record of the list lacks `seen`, the record loop raises. -/
theorem processRecords_raises (M : MathLib) (o : Option Position) (t : ℚ) :
    ∀ (l : List AircraftRecord) (s0 : AircraftState),
      (∃ a ∈ l, a.seen = none) →
      (processRecords M o t s0 l).2.isSome = true := by
  intro l
  induction l with
  | nil =>
    intro s0 h
    simp at h
  | cons a rest ih =>
    intro s0 h
    simp only [processRecords]
    cases hstep : stepRecord M o t s0 a with
    | mk s1 e =>
      cases e with
      | some e2 => simp
      | none =>
        rcases h with ⟨bad, hmem, hseen⟩
        rcases List.mem_cons.1 hmem with h1 | h2
        · subst h1
          rw [stepRecord, hseen] at hstep
          simp at hstep
        · exact ih s1 ⟨bad, h2, hseen⟩

/-- When the loop raised, none of the end-of-cycle `metric.set` calls
happen: every instrument except the `count` histogram keeps its
previous value. -/
theorem applyAircraftCycle_raised (m : AircraftMetrics)
    (r : AircraftState × Option PyErr) (h : r.2.isSome = true) :
    (applyAircraftCycle m r).observed = m.observed
    ∧ (applyAircraftCycle m r).observed_with_pos = m.observed_with_pos
    ∧ (applyAircraftCycle m r).observed_with_mlat = m.observed_with_mlat
    ∧ (∀ bl, (applyAircraftCycle m r).max_range bl = m.max_range bl)
    ∧ (∀ key, (applyAircraftCycle m r).recent_count key
        = m.recent_count key) := by
  unfold applyAircraftCycle
  cases hr : r.2 with
  | none => rw [hr] at h; simp at h
  | some e => simp

/-- C10 (amended): an aircraft document containing a record that lacks
`seen` makes `process_aircraft` raise (the normalised `None` fails the
`<` comparison), so none of the end-of-cycle instrument publications
(`observed`, `observed_with_pos`, `observed_with_mlat`, `max_range`,
`recent_count`) happen — but the `count`-histogram observations for
qualifying records processed earlier in the same cycle have already
been applied. -/
theorem c10_missing_seen_raises (M : MathLib) (o : Option Position)
    (recs : List AircraftRecord) (t : ℚ)
    (h : ∃ a ∈ recs, a.seen = none) :
    (process_aircraft M o recs t).2.isSome = true
    ∧ ∀ m : AircraftMetrics,
      (applyAircraftCycle m (process_aircraft M o recs t)).observed
          = m.observed
      ∧ (applyAircraftCycle m (process_aircraft M o recs t)).observed_with_pos
          = m.observed_with_pos
      ∧ (applyAircraftCycle m (process_aircraft M o recs t)).observed_with_mlat
          = m.observed_with_mlat
      ∧ (∀ bl, (applyAircraftCycle m (process_aircraft M o recs t)).max_range bl
          = m.max_range bl)
      ∧ (∀ key, (applyAircraftCycle m (process_aircraft M o recs t)).recent_count key
          = m.recent_count key) := by
  have hr : (process_aircraft M o recs t).2.isSome = true :=
    processRecords_raises M o t recs initAircraftState h
  exact ⟨hr, fun m => applyAircraftCycle_raised m _ hr⟩

/-- Witness for C10 (amended): a one-record document whose record
lacks `seen`. -/
theorem c10_missing_seen_raises_witness :
    (process_aircraft trivMathLib none
      [⟨none, none, none, none, none⟩] 15).2.isSome = true
    ∧ (applyAircraftCycle emptyAircraftMetrics
        (process_aircraft trivMathLib none
          [⟨none, none, none, none, none⟩] 15)).observed
      = emptyAircraftMetrics.observed :=
  ⟨(c10_missing_seen_raises trivMathLib none
      [⟨none, none, none, none, none⟩] 15
      ⟨⟨none, none, none, none, none⟩, by simp, rfl⟩).1,
   ((c10_missing_seen_raises trivMathLib none
      [⟨none, none, none, none, none⟩] 15
      ⟨⟨none, none, none, none, none⟩, by simp, rfl⟩).2
      emptyAircraftMetrics).1⟩

/-- Counterexample for C10 as stated: with a known origin, a document
whose first record qualifies (and is observed into the `count`
histogram during the loop) and whose second record lacks `seen` makes
the cycle raise, yet the `count` histogram — one of the aircraft
instruments — has already been updated, so it is not true that none of
the aircraft instruments are updated for that cycle. -/
theorem c10_counterexample_histogram_updated :
    (process_aircraft trivMathLib (some ⟨0, 0⟩)
      [⟨some 1, some 1, some 1, some 1, none⟩,
       ⟨none, none, none, none, none⟩] 15).2.isSome = true
    ∧ (applyAircraftCycle emptyAircraftMetrics
        (process_aircraft trivMathLib (some ⟨0, 0⟩)
          [⟨some 1, some 1, some 1, some 1, none⟩,
           ⟨none, none, none, none, none⟩] 15)).count_hist ("0.0") = [0] := by
  constructor <;> with_unfolding_all decide

theorem alist_lookup_append_isSome {κ β : Type} [DecidableEq κ]
    (l : List (κ × β)) (k k2 : κ) (v : β) :
    (alist_lookup (l ++ [(k, v)]) k2).isSome
      ↔ ((alist_lookup l k2).isSome ∨ k2 = k) := by
  induction l with
  | nil =>
    simp only [List.nil_append, alist_lookup]
    split_ifs with h
    · simp [h]
    · simp only [Option.isSome_none, Bool.false_eq_true, false_iff, false_or]
      exact fun hk => h hk.symm
  | cons hd tl ih =>
    obtain ⟨hk, hv⟩ := hd
    simp only [List.cons_append, alist_lookup]
    split_ifs with h
    · simp
    · exact ih

theorem alist_set_lookup_isSome {κ β : Type} [DecidableEq κ]
    (l : List (κ × β)) (k : κ) (v : β) (k2 : κ) :
    (alist_lookup (alist_set l k v) k2).isSome
      ↔ ((alist_lookup l k2).isSome ∨ k2 = k) := by
  induction l with
  | nil =>
    simp only [alist_set, alist_lookup]
    split_ifs with h
    · simp [h]
    · simp only [Option.isSome_none, Bool.false_eq_true, false_iff, false_or]
      exact fun hk => h hk.symm
  | cons hd tl ih =>
    obtain ⟨hk2, hv2⟩ := hd
    simp only [alist_set]
    split_ifs with h
    · subst h
      simp only [alist_lookup]
      split_ifs with h2
      · simp [h2]
      · have hne : ¬k2 = hk2 := fun hh => h2 hh.symm
        simp [hne]
    · simp only [alist_lookup]
      split_ifs with h2
      · simp
      · exact ih

theorem dd_get_fst_keys {κ : Type} [DecidableEq κ]
    (l : List (κ × ℚ)) (k k2 : κ) :
    (alist_lookup (dd_get l k).1 k2).isSome
      ↔ ((alist_lookup l k2).isSome ∨ k2 = k) := by
  unfold dd_get
  cases hl : alist_lookup l k with
  | some v =>
    dsimp only
    constructor
    · exact Or.inl
    · rintro (h | h)
      · exact h
      · subst h
        rw [hl]
        rfl
  | none =>
    dsimp only
    exact alist_lookup_append_isSome l k k2 0

theorem dd_incr_keys {κ : Type} [DecidableEq κ]
    (l : List (κ × ℕ)) (k k2 : κ) :
    (alist_lookup (dd_incr l k) k2).isSome
      ↔ ((alist_lookup l k2).isSome ∨ k2 = k) := by
  unfold dd_incr
  cases hl : alist_lookup l k with
  | some v =>
    dsimp only
    exact alist_set_lookup_isSome l k (v + 1) k2
  | none =>
    dsimp only
    exact alist_lookup_append_isSome l k k2 1

theorem geoUpdate_observed (M : MathLib) (org : Position)
    (s : AircraftState) (la lo : ℚ) :
    (geoUpdate M org s la lo).observed = s.observed := rfl

theorem geoUpdate_with_pos (M : MathLib) (org : Position)
    (s : AircraftState) (la lo : ℚ) :
    (geoUpdate M org s la lo).with_pos = s.with_pos := rfl

theorem geoUpdate_with_mlat (M : MathLib) (org : Position)
    (s : AircraftState) (la lo : ℚ) :
    (geoUpdate M org s la lo).with_mlat = s.with_mlat := rfl

/-- The geo update extends the max-range key set by exactly the
bearing label of the record (also when the distance does not beat the
current maximum: the defaultdict read already inserted the key). -/
theorem geoUpdate_max_keys (M : MathLib) (org : Position)
    (s : AircraftState) (la lo : ℚ) (bl : String) :
    (alist_lookup (geoUpdate M org s la lo).max_ranges bl).isSome
      ↔ ((alist_lookup s.max_ranges bl).isSome
        ∨ bl = relative_bearing (relative_angle M org ⟨la, lo⟩)) := by
  simp only [geoUpdate]
  split_ifs with hc
  · rw [alist_set_lookup_isSome, dd_get_fst_keys]
    tauto
  · rw [dd_get_fst_keys]

/-- The geo update extends the positions key set by exactly the
`(bearing sector, distance bucket)` pair of the record. -/
theorem geoUpdate_pos_keys (M : MathLib) (org : Position)
    (s : AircraftState) (la lo : ℚ) (key : String × String) :
    (alist_lookup (geoUpdate M org s la lo).positions key).isSome
      ↔ ((alist_lookup s.positions key).isSome
        ∨ key = (relative_bearing (relative_angle M org ⟨la, lo⟩),
            distance_bucket (haversine_distance M org ⟨la, lo⟩))) := by
  simp only [geoUpdate]
  rw [dd_incr_keys]

/-- A successful loop iteration extends the key set of the max-range
defaultdict by exactly the bearing label of the record (when the record
qualifies geographically) and the key set of the positions defaultdict
by exactly its label pair. -/
theorem stepRecord_keys (M : MathLib) (o : Option Position) (t : ℚ)
    (s : AircraftState) (a : AircraftRecord) (s2 : AircraftState)
    (h : stepRecord M o t s a = (s2, none)) :
    (∀ bl, (alist_lookup s2.max_ranges bl).isSome
      ↔ ((alist_lookup s.max_ranges bl).isSome
        ∨ (posCond a t = true ∧ bearingLabelOf M o a = some bl)))
    ∧ (∀ key, (alist_lookup s2.positions key).isSome
      ↔ ((alist_lookup s.positions key).isSome
        ∨ (posCond a t = true ∧ labelsOf M o a = some key))) := by
  cases ha : a.seen with
  | none =>
    rw [stepRecord, ha] at h
    simp at h
  | some sv =>
    rw [stepRecord, ha] at h
    dsimp only at h
    by_cases hp : posCond a t
    · rw [if_pos hp] at h
      cases o with
      | none =>
        simp only [Prod.mk.injEq] at h
        rcases h with ⟨h1, _⟩
        subst h1
        constructor
        · intro bl
          simp only [bearingLabelOf]
          split_ifs <;> simp
        · intro key
          simp only [labelsOf]
          split_ifs <;> simp
      | some org =>
        cases hla : a.lat with
        | none =>
          rw [hla] at h
          cases a.lon <;> simp at h
        | some la =>
          cases hlo : a.lon with
          | none =>
            rw [hla, hlo] at h
            simp at h
          | some lo =>
            rw [hla, hlo] at h
            simp only [Prod.mk.injEq] at h
            rcases h with ⟨h1, _⟩
            subst h1
            have hblf : bearingLabelOf M (some org) a
              = some (relative_bearing (relative_angle M org ⟨la, lo⟩)) := by
              simp [bearingLabelOf, hla, hlo]
            have hlbf : labelsOf M (some org) a
              = some (relative_bearing (relative_angle M org ⟨la, lo⟩),
                  distance_bucket (haversine_distance M org ⟨la, lo⟩)) := by
              simp [labelsOf, hla, hlo]
            constructor
            · intro bl
              rw [geoUpdate_max_keys]
              simp only [hblf, hp, true_and, Option.some.injEq]
              split_ifs <;> (dsimp only; exact or_congr_right eq_comm)
            · intro key
              rw [geoUpdate_pos_keys]
              simp only [hlbf, hp, true_and, Option.some.injEq]
              split_ifs <;> (dsimp only; exact or_congr_right eq_comm)
    · rw [if_neg hp] at h
      simp only [Prod.mk.injEq] at h
      rcases h with ⟨h1, _⟩
      subst h1
      constructor
      · intro bl
        simp only [hp, Bool.false_eq_true, false_and, or_false]
        split_ifs <;> simp
      · intro key
        simp only [hp, Bool.false_eq_true, false_and, or_false]
        split_ifs <;> simp

/-- Over a successful run of the record loop, the key set of each
defaultdict is the initial key set plus exactly the labels of the
qualifying records. -/
theorem processRecords_keys (M : MathLib) (o : Option Position) (t : ℚ) :
    ∀ (l : List AircraftRecord) (s0 s : AircraftState),
      processRecords M o t s0 l = (s, none) →
      (∀ bl, (alist_lookup s.max_ranges bl).isSome
        ↔ ((alist_lookup s0.max_ranges bl).isSome
          ∨ ∃ a ∈ l, posCond a t = true ∧ bearingLabelOf M o a = some bl))
      ∧ (∀ key, (alist_lookup s.positions key).isSome
        ↔ ((alist_lookup s0.positions key).isSome
          ∨ ∃ a ∈ l, posCond a t = true ∧ labelsOf M o a = some key)) := by
  intro l
  induction l with
  | nil =>
    intro s0 s h
    simp only [processRecords, Prod.mk.injEq] at h
    rcases h with ⟨h1, _⟩
    subst h1
    simp
  | cons a rest ih =>
    intro s0 s h
    simp only [processRecords] at h
    cases hstep : stepRecord M o t s0 a with
    | mk s1 e =>
      rw [hstep] at h
      cases e with
      | none =>
        have hk := stepRecord_keys M o t s0 a s1 hstep
        have hr := ih s1 s h
        constructor
        · intro bl
          rw [hr.1 bl, hk.1 bl]
          constructor
          · rintro ((hh | hh) | ⟨b, hb, hh⟩)
            · exact Or.inl hh
            · exact Or.inr ⟨a, List.mem_cons_self a rest, hh⟩
            · exact Or.inr ⟨b, List.mem_cons_of_mem a hb, hh⟩
          · rintro (hh | ⟨b, hb, hh⟩)
            · exact Or.inl (Or.inl hh)
            · rcases List.mem_cons.1 hb with h1 | h1
              · subst h1
                exact Or.inl (Or.inr hh)
              · exact Or.inr ⟨b, h1, hh⟩
        · intro key
          rw [hr.2 key, hk.2 key]
          constructor
          · rintro ((hh | hh) | ⟨b, hb, hh⟩)
            · exact Or.inl hh
            · exact Or.inr ⟨a, List.mem_cons_self a rest, hh⟩
            · exact Or.inr ⟨b, List.mem_cons_of_mem a hb, hh⟩
          · rintro (hh | ⟨b, hb, hh⟩)
            · exact Or.inl (Or.inl hh)
            · rcases List.mem_cons.1 hb with h1 | h1
              · subst h1
                exact Or.inl (Or.inr hh)
              · exact Or.inr ⟨b, h1, hh⟩
      | some e2 => simp at h

/-- C5: on a cycle that completes without raising, the three scalar
totals are published unconditionally (set to `some`, even when zero),
while `max_range` is published exactly at the bearing sectors of the
qualifying aircraft of this cycle and `recent_count` exactly at their
`(sector, bucket)` pairs; every other label keeps its previous
instrument value (not zeroed). -/
theorem c5_publication_discipline (M : MathLib) (o : Option Position)
    (recs : List AircraftRecord) (t : ℚ) (m : AircraftMetrics)
    (s : AircraftState) (h : process_aircraft M o recs t = (s, none)) :
    (applyAircraftCycle m (process_aircraft M o recs t)).observed
        = some (s.observed : ℚ)
    ∧ (applyAircraftCycle m (process_aircraft M o recs t)).observed_with_pos
        = some (s.with_pos : ℚ)
    ∧ (applyAircraftCycle m (process_aircraft M o recs t)).observed_with_mlat
        = some (s.with_mlat : ℚ)
    ∧ (∀ bl, (alist_lookup s.max_ranges bl).isSome
        ↔ ∃ a ∈ recs, posCond a t = true ∧ bearingLabelOf M o a = some bl)
    ∧ (∀ bl v, alist_lookup s.max_ranges bl = some v →
        (applyAircraftCycle m (process_aircraft M o recs t)).max_range bl
          = some v)
    ∧ (∀ bl, alist_lookup s.max_ranges bl = none →
        (applyAircraftCycle m (process_aircraft M o recs t)).max_range bl
          = m.max_range bl)
    ∧ (∀ key, (alist_lookup s.positions key).isSome
        ↔ ∃ a ∈ recs, posCond a t = true ∧ labelsOf M o a = some key)
    ∧ (∀ key c, alist_lookup s.positions key = some c →
        (applyAircraftCycle m (process_aircraft M o recs t)).recent_count key
          = some (c : ℚ))
    ∧ (∀ key, alist_lookup s.positions key = none →
        (applyAircraftCycle m (process_aircraft M o recs t)).recent_count key
          = m.recent_count key) := by
  have hkeys := processRecords_keys M o t recs initAircraftState s h
  rw [h]
  unfold applyAircraftCycle
  dsimp only
  refine ⟨rfl, rfl, rfl, ?_, ?_, ?_, ?_, ?_, ?_⟩
  · intro bl
    have hb := hkeys.1 bl
    simpa [initAircraftState, alist_lookup] using hb
  · intro bl v hv
    rw [hv]
    rfl
  · intro bl hnone
    rw [hnone]
    rfl
  · intro key
    have hb := hkeys.2 key
    simpa [initAircraftState, alist_lookup] using hb
  · intro key c hc
    rw [hc]
    rfl
  · intro key hnone
    rw [hnone]
    rfl

/-- Witness for C5: a one-record cycle with a known origin; the
scalar is published, and an unobserved sector keeps its previous
(unset) value. -/
theorem c5_publication_discipline_witness :
    (applyAircraftCycle emptyAircraftMetrics
      (process_aircraft trivMathLib (some ⟨0, 0⟩)
        [⟨some 1, some 1, some 1, some 1, none⟩] 15)).observed
      = some ((process_aircraft trivMathLib (some ⟨0, 0⟩)
          [⟨some 1, some 1, some 1, some 1, none⟩] 15).1.observed : ℚ)
    ∧ (applyAircraftCycle emptyAircraftMetrics
      (process_aircraft trivMathLib (some ⟨0, 0⟩)
        [⟨some 1, some 1, some 1, some 1, none⟩] 15)).max_range ("22.5")
      = emptyAircraftMetrics.max_range ("22.5") := by
  have h := c5_publication_discipline trivMathLib (some ⟨0, 0⟩)
    [⟨some 1, some 1, some 1, some 1, none⟩] 15 emptyAircraftMetrics
    (process_aircraft trivMathLib (some ⟨0, 0⟩)
      [⟨some 1, some 1, some 1, some 1, none⟩] 15).1
    (by with_unfolding_all decide)
  exact ⟨h.1, h.2.2.2.2.2.1 ("22.5") (by with_unfolding_all decide)⟩

/-- Row-by-row behaviour of the `process_stats` loop: when no row
raises, the produced updates are the concatenation of the per-row
independent updates; and the loop raises exactly when some row
raises. -/
theorem processRows_spec (stats : StatsDoc) :
    ∀ l : List (String × String × String),
      ((processRows stats l).2 = none →
        (processRows stats l).1 = l.flatMap (rowUpdates stats))
      ∧ ((processRows stats l).2.isSome = true
        ↔ ∃ r ∈ l, rowRaises stats r = true) := by
  intro l
  induction l with
  | nil => simp [processRows]
  | cons row rest ih =>
    rw [processRows]
    cases hstep : rowStep stats row with
    | error e =>
      dsimp only
      constructor
      · intro h
        simp at h
      · simp only [Option.isSome_some, true_iff]
        exact ⟨row, List.mem_cons_self row rest, by simp [rowRaises, hstep]⟩
    | ok us =>
      dsimp only
      constructor
      · intro h
        rw [List.flatMap_cons]
        rw [ih.1 h]
        simp [rowUpdates, hstep]
      · rw [ih.2]
        constructor
        · intro hh
          rcases hh with ⟨r, hr, hraise⟩
          exact ⟨r, List.mem_cons_of_mem row hr, hraise⟩
        · rintro ⟨r, hr, hraise⟩
          rcases List.mem_cons.1 hr with h1 | h1
          · subst h1
            rw [rowRaises, hstep] at hraise
            simp at hraise
          · exact ⟨r, h1, hraise⟩

/-- C1 (amended): `process_stats` walks the spec-table rows in order;
a row whose time-period section is absent is skipped affecting only
itself, and a row whose field is absent within a present section sets
NaN affecting only itself — but a non-empty group missing from a
present time-period section (or an unexpected value shape) raises an
uncaught exception that aborts all remaining rows of the cycle.  When
no row raises, the updates of the cycle are exactly the independent
updates of each row in order. -/
theorem c1_stats_row_independence (stats : StatsDoc) :
    ((process_stats stats).2 = none →
      (process_stats stats).1 = statsRows.flatMap (rowUpdates stats))
    ∧ ((process_stats stats).2.isSome = true
      ↔ ∃ r ∈ statsRows, rowRaises stats r = true)
    ∧ (∀ g tp name, alist_lookup stats tp = none →
      rowStep stats (g, tp, name) = .ok [])
    ∧ (∀ g tp name entries gentries,
      alist_lookup stats tp = some (.obj entries) → ¬g = "" →
      alist_lookup entries g = some (.obj gentries) →
      alist_lookup gentries name = none →
      rowStep stats (g, tp, name) = .ok [⟨g, name, [], .nan⟩]) := by
  refine ⟨(processRows_spec stats statsRows).1,
    (processRows_spec stats statsRows).2, ?_, ?_⟩
  · intro g tp name hl
    simp [rowStep, hl]
  · intro g tp name entries gentries htp hg hge hname
    simp [rowStep, htp, hg, hge, hname]

/-- Witness for C1 (amended): the empty statistics document — every
row skips on its time-period lookup, no row raises, and the updates
equal the per-row independent updates (all empty). -/
theorem c1_stats_row_independence_witness :
    (process_stats ([] : StatsDoc)).1
      = statsRows.flatMap (rowUpdates ([] : StatsDoc))
    ∧ ¬((process_stats ([] : StatsDoc)).2.isSome = true) := by
  have hth := c1_stats_row_independence ([] : StatsDoc)
  have hnone : (process_stats ([] : StatsDoc)).2 = none := by
    with_unfolding_all decide
  refine ⟨hth.1 hnone, ?_⟩
  rw [hnone]
  simp

/-- Counterexample for C1 as stated: a document whose `total` section
is present but lacks the `adaptive` sub-group (while containing data
for the later `tracks` group).  The cycle aborts with an uncaught
`KeyError` at the first `adaptive`/`total` row: the `tracks`/`all`
instrument is never set during the cycle, although processing that row
independently (as the claim asserts) would set it. -/
theorem c1_counterexample_missing_subgroup_aborts :
    (process_stats [("total", .obj [("messages", .num 5),
        ("tracks", .obj [("all", .num 7)])])]).2
      = some (.keyError ("adaptive"))
    ∧ ¬(("tracks", "all") ∈ (process_stats [("total", .obj [("messages", .num 5),
        ("tracks", .obj [("all", .num 7)])])]).1.map updKey)
    ∧ (("tracks", "all") ∈ (statsRows.flatMap
        (rowUpdates [("total", .obj [("messages", .num 5),
          ("tracks", .obj [("all", .num 7)])])])).map updKey) := by
  refine ⟨?_, ?_, ?_⟩ <;> with_unfolding_all decide

/-- Witness for C9: the theorem applied at the concrete fixture
document of the claim. -/
theorem c9_receiver_cycle_witness :
    (updater_receiver_cycle none
      (.ok ⟨some (-34.9 : ℚ), some (138.6 : ℚ), false⟩)).1
      = some ⟨-34.9, 138.6⟩ :=
  (c9_receiver_cycle none (.ok ⟨some (-34.9 : ℚ), some (138.6 : ℚ), false⟩)).1
    ⟨some (-34.9 : ℚ), some (138.6 : ℚ), false⟩ (-34.9) 138.6 rfl rfl rfl
